import Mathlib

/-!
Verification of the zkp-fl benchmark dashboard core
(`advanced_dashboard/server.py`): the report-store scanner and record
normalizer (`load_benchmark_files`), the aggregator
(`calculate_aggregate_metrics`, `get_runs`), the single-record lookup
(`get_benchmark`) and the run supervisor (`run_benchmark`,
`run_benchmark_process`).

The Python code is shallowly embedded: JSON dictionaries become structures
whose fields are `Option`-valued (a `none` field models an absent key),
`dict.get(k, d)` becomes `Option.getD`, numbers become `ℚ` (timestamps used
only for ordering become `ℤ`), Python string operations are reimplemented
structurally, and the background process run becomes a pure state-passing
function parameterised by the outcome of the external process.
-/

/-! ## Python-ish string helpers -/

/-- Python truthiness filter for an optional string: `None` and `""` are
falsy (used by `b.get(k) or ...` and by `if not run_id`). -/
def pyTruthy : Option String → Option String
  | none => none
  | some s => if s = "" then none else some s

/-- Lowercasing as in Python `str.lower` (per-character, structural so that
the kernel can evaluate it). -/
def strLower (s : String) : String := ⟨s.data.map Char.toLower⟩

/-- Substring test `pat in s` (Python `in` on strings), checking every
suffix for `pat` as a prefix. -/
def strContainsB (s pat : String) : Bool :=
  go pat.data s.data
where
  go (pat : List Char) : List Char → Bool
    | [] => pat.isEmpty
    | c :: cs => pat.isPrefixOf (c :: cs) || go pat cs

/-- Lexicographic comparison of character lists, as Python compares
strings. -/
def lexLeB : List Char → List Char → Bool
  | [], _ => true
  | _ :: _, [] => false
  | a :: as, b :: bs => if a = b then lexLeB as bs else decide (a < b)

/-- Python string `<=`, used by `sorted(..., key=..., reverse=True)`. -/
def strLeB (a b : String) : Bool := lexLeB a.data b.data

/-! ## A sorting function standing in for Python `list.sort` / `sorted`.
Only the fact that it permutes its input matters to the claims below. -/

/-- Insert into a sorted list according to a boolean comparison. -/
def insertSorted {α : Type} (le : α → α → Bool) (x : α) : List α → List α
  | [] => [x]
  | y :: ys => if le x y then x :: y :: ys else y :: insertSorted le x ys

/-- Sorting used to model Python `sorted` (a permutation of the input). -/
def insertionSort {α : Type} (le : α → α → Bool) : List α → List α
  | [] => []
  | x :: xs => insertSorted le x (insertionSort le xs)

/-! ## Data model

`BenchmarkRecord` models one benchmark JSON dictionary (either a whole
single-record file or one entry of a report file's `client_results`).
Only the keys actually read by the server's core logic are modelled;
an `Option` field set to `none` models an absent key.  Further keys of the
artifacts (`end_time`, `system_metrics`, circuit statistics, ...) are never
read by the embedded operations. -/

/-- Keys of the `zkp_metrics` sub-dictionary read by the aggregator. -/
structure ZkpMetrics where
  proof_generation_time_ms : Option ℚ
  proof_verification_time_ms : Option ℚ
  proof_size_bytes : Option ℚ
  deriving DecidableEq, Repr

/-- Keys of the `training_metrics` sub-dictionary read by the aggregator. -/
structure TrainingMetrics where
  training_time_ms : Option ℚ
  final_loss : Option ℚ
  deriving DecidableEq, Repr

/-- One benchmark record dictionary (keys read by the server). -/
structure BenchmarkRecord where
  session_id : Option String
  client_id : Option String
  report_id : Option String
  scenario : Option String
  start_time : Option String
  num_clients : Option Int
  total_duration_ms : Option ℚ
  zkp_metrics : Option ZkpMetrics
  training_metrics : Option TrainingMetrics
  filename : Option String
  file_mtime : Option Int
  deriving DecidableEq, Repr

/-- The parsed content of one artifact file.  `client_results` present
(`some`) makes it a multi-client report (the branch
`if 'client_results' in data`); the remaining top-level keys are `base`
plus the report identifier `benchmark_id`. -/
structure RawData where
  base : BenchmarkRecord
  benchmark_id : Option String
  client_results : Option (List BenchmarkRecord)
  deriving DecidableEq, Repr

/-- A file on disk as seen by the scanner: its glob path, basename,
modification time, and parse result (`none` models `json.JSONDecodeError`
or `KeyError`, the exceptions caught by `load_benchmark_files`). -/
structure DiskFile where
  path : String
  name : String
  mtime : Int
  content : Option RawData
  deriving DecidableEq, Repr

/-! ## Report store scanner and record normalizer
(embedding of `load_benchmark_files`, server.py lines 101-176) -/

/-- Match of a one-`*` glob pattern `pre*suf` against a basename. -/
def globMatch (pre suf name : String) : Bool :=
  decide (pre.data <+: name.data)
    && decide (suf.data <:+ (name.data.drop pre.data.length))

/-- The two glob patterns applied to the directory listing, first
`benchmark_*.json` and then `benchmark_report_*.json`, concatenated
without deduplication (`all_files.extend(pattern_files)`). -/
def scanFiles (dir : List DiskFile) : List DiskFile :=
  dir.filter (fun f => globMatch ("benchmark_") (".json") f.name)
    ++ dir.filter (fun f => globMatch ("benchmark_report_") (".json") f.name)

/-- The sort `all_files.sort(key=os.path.getmtime, reverse=True)`. -/
def sortFilesDesc (files : List DiskFile) : List DiskFile :=
  insertionSort (fun a b => decide (b.mtime ≤ a.mtime)) files

/-- Provenance attachment: `data['filename'] = basename;
data['file_mtime'] = getmtime(path)`. -/
def attachMeta (f : DiskFile) (r : BenchmarkRecord) : BenchmarkRecord :=
  { r with filename := some f.name, file_mtime := some f.mtime }

/-- The scenario inferred from the (lower-cased) glob path when the record
has no `scenario` key. -/
def inferredScenario (path : String) : String :=
  if strContainsB (strLower path) ("multi") then "multi-client"
  else if strContainsB (strLower path) ("single") then "single-client"
  else "unknown"

/-- The block `if 'scenario' not in data: ...` of `load_benchmark_files`. -/
def inferScenario (path : String) (r : BenchmarkRecord) : BenchmarkRecord :=
  match r.scenario with
  | some _ => r
  | none => { r with scenario := some (inferredScenario path) }

/-- Normalization of one entry of `client_results`: provenance, then the
report-level fields (`report_id` from `benchmark_id` defaulting to
`"unknown"`, `num_clients` defaulting to `1`), then scenario inference. -/
def normalizeClient (f : DiskFile) (d : RawData) (r : BenchmarkRecord) :
    BenchmarkRecord :=
  inferScenario f.path
    { attachMeta f r with
        report_id := some (d.benchmark_id.getD ("unknown")),
        num_clients := some (d.base.num_clients.getD 1) }

/-- Normalization of an individual benchmark file: provenance, then
scenario inference. -/
def normalizeSingle (f : DiskFile) (r : BenchmarkRecord) : BenchmarkRecord :=
  inferScenario f.path (attachMeta f r)

/-- The per-file body of the scan loop: a parse failure yields no records
(the `except (json.JSONDecodeError, KeyError)` arm prints a warning and
continues), a report file yields one record per client entry, any other
file yields its single record. -/
def processFile (f : DiskFile) : List BenchmarkRecord :=
  match f.content with
  | none => []
  | some d =>
    match d.client_results with
    | some clients => clients.map (normalizeClient f d)
    | none => [normalizeSingle f d.base]

/-- `load_benchmark_files`: glob both patterns, sort newest-first, parse
and normalize each file, skipping unparsable ones. -/
def load_benchmark_files (dir : List DiskFile) : List BenchmarkRecord :=
  (sortFilesDesc (scanFiles dir)).flatMap processFile

/-! ## Aggregator (embedding of `calculate_aggregate_metrics`,
server.py lines 178-225) -/

/-- Metric extraction `benchmark.get('zkp_metrics', {}).get('proof_generation_time_ms', 0)`. -/
def proofTimeOf (b : BenchmarkRecord) : ℚ :=
  (b.zkp_metrics.bind ZkpMetrics.proof_generation_time_ms).getD 0

/-- Metric extraction for `proof_verification_time_ms`. -/
def verifyTimeOf (b : BenchmarkRecord) : ℚ :=
  (b.zkp_metrics.bind ZkpMetrics.proof_verification_time_ms).getD 0

/-- Metric extraction for `training_time_ms`. -/
def trainingTimeOf (b : BenchmarkRecord) : ℚ :=
  (b.training_metrics.bind TrainingMetrics.training_time_ms).getD 0

/-- Metric extraction for `final_loss`. -/
def finalLossOf (b : BenchmarkRecord) : ℚ :=
  (b.training_metrics.bind TrainingMetrics.final_loss).getD 0

/-- Metric extraction for `proof_size_bytes`. -/
def proofSizeOf (b : BenchmarkRecord) : ℚ :=
  (b.zkp_metrics.bind ZkpMetrics.proof_size_bytes).getD 0

/-- Metric extraction `benchmark.get('total_duration_ms', 0)`. -/
def durationOf (b : BenchmarkRecord) : ℚ :=
  b.total_duration_ms.getD 0

/-- Round-half-to-even of a rational to an integer, as Python's `round`. -/
def roundHalfToEven (q : ℚ) : ℤ :=
  if q - ⌊q⌋ < 1/2 then ⌊q⌋
  else if (1:ℚ)/2 < q - ⌊q⌋ then ⌊q⌋ + 1
  else if ⌊q⌋ % 2 = 0 then ⌊q⌋ else ⌊q⌋ + 1

/-- Python `round(q, ndigits)` on exact rationals. -/
def pyRound (q : ℚ) (ndigits : ℕ) : ℚ :=
  (roundHalfToEven (q * 10 ^ ndigits) : ℚ) / 10 ^ ndigits

/-- The result dictionary of `calculate_aggregate_metrics`. -/
structure AggregateMetrics where
  total_benchmarks : ℕ
  avg_proof_time : ℚ
  avg_verify_time : ℚ
  avg_training_time : ℚ
  avg_final_loss : ℚ
  avg_proof_size : ℚ
  total_duration : ℚ
  deriving DecidableEq, Repr

/-- The shared denominator: `count` is incremented once per record of the
loop (every embedded record is a dictionary, so the `isinstance` guard
always passes) and the guard `if count == 0: count = 1` follows. -/
def aggCount (benchmarks : List BenchmarkRecord) : ℕ :=
  if benchmarks.length = 0 then 1 else benchmarks.length

/-- `calculate_aggregate_metrics`: the all-zero dictionary on an empty
input, otherwise each `totals` accumulator divided by the shared `count`,
rounded to 2 decimal places except `avg_final_loss` (4). -/
def calculate_aggregate_metrics (benchmarks : List BenchmarkRecord) :
    AggregateMetrics :=
  if benchmarks = [] then
    { total_benchmarks := 0, avg_proof_time := 0, avg_verify_time := 0,
      avg_training_time := 0, avg_final_loss := 0, avg_proof_size := 0,
      total_duration := 0 }
  else
    { total_benchmarks := benchmarks.length
      avg_proof_time :=
        pyRound ((benchmarks.map proofTimeOf).sum / (aggCount benchmarks : ℚ)) 2
      avg_verify_time :=
        pyRound ((benchmarks.map verifyTimeOf).sum / (aggCount benchmarks : ℚ)) 2
      avg_training_time :=
        pyRound ((benchmarks.map trainingTimeOf).sum / (aggCount benchmarks : ℚ)) 2
      avg_final_loss :=
        pyRound ((benchmarks.map finalLossOf).sum / (aggCount benchmarks : ℚ)) 4
      avg_proof_size :=
        pyRound ((benchmarks.map proofSizeOf).sum / (aggCount benchmarks : ℚ)) 2
      total_duration :=
        pyRound ((benchmarks.map durationOf).sum / (aggCount benchmarks : ℚ)) 2 }

/-! ## Run grouping (embedding of `get_runs`, server.py lines 431-456) -/

/-- One entry of the `runs` dictionary built by `get_runs`. -/
structure RunGroup where
  run_id : String
  scenario : String
  start_time : Option String
  num_clients : Int
  client_ids : List String
  deriving DecidableEq, Repr

/-- The run identifier `b.get('report_id') or b.get('session_id')`
followed by the guard `if not run_id: continue` (Python `or` and `not`
use string truthiness: `None` and `""` are falsy). -/
def runIdOf (b : BenchmarkRecord) : Option String :=
  match pyTruthy b.report_id with
  | some rid => some rid
  | none => pyTruthy b.session_id

/-- The `client_ids` update: append `b['client_id']` when it is truthy and
not already present. -/
def addClient (g : RunGroup) (b : BenchmarkRecord) : RunGroup :=
  match pyTruthy b.client_id with
  | some cid =>
    if cid ∈ g.client_ids then g
    else { g with client_ids := g.client_ids ++ [cid] }
  | none => g

/-- The fresh group created on first sight of a run id. -/
def mkGroup (rid : String) (b : BenchmarkRecord) : RunGroup :=
  { run_id := rid, scenario := b.scenario.getD ("unknown"),
    start_time := b.start_time, num_clients := b.num_clients.getD 1,
    client_ids := [] }

/-- One iteration of the `for b in benchmarks` loop of `get_runs`. -/
def insertRecord (runs : List RunGroup) (b : BenchmarkRecord) :
    List RunGroup :=
  match runIdOf b with
  | none => runs
  | some rid =>
    if runs.any (fun g => g.run_id = rid) then
      runs.map (fun g => if g.run_id = rid then addClient g b else g)
    else
      runs ++ [addClient (mkGroup rid b) b]

/-- The sort key `x['start_time'] or ''`. -/
def startKey (g : RunGroup) : String := g.start_time.getD ("")

/-- `get_runs` on an already-loaded record list: build the `runs`
dictionary in discovery order, then sort most-recent-first. -/
def get_runs (records : List BenchmarkRecord) : List RunGroup :=
  insertionSort (fun a b => strLeB (startKey b) (startKey a))
    (records.foldl insertRecord [])

/-! ## Single-record lookup (embedding of `get_benchmark`,
server.py lines 336-348) -/

/-- The `try` body of `get_benchmark`: find the first record with the
requested `session_id`, raising `HTTPException(404, ...)` on a miss.
Errors are `(status code, detail)` pairs. -/
def get_benchmark_body (benchmarks : List BenchmarkRecord)
    (session_id : String) : Except (Nat × String) BenchmarkRecord :=
  match benchmarks.find? (fun b => b.session_id = some session_id) with
  | some b => Except.ok b
  | none => Except.error (404, "Benchmark not found")

/-- Python `str` of an `HTTPException`: `"<status>: <detail>"`. -/
def httpExcStr (e : Nat × String) : String :=
  Nat.repr e.1 ++ ": " ++ e.2

/-- `get_benchmark` endpoint: the `except Exception` arm catches every
exception raised in the `try` block, including the 404 `HTTPException`
itself, and re-raises it as a 500 `HTTPException`. -/
def get_benchmark (dir : List DiskFile) (session_id : String) :
    Except (Nat × String) BenchmarkRecord :=
  match get_benchmark_body (load_benchmark_files dir) session_id with
  | Except.ok b => Except.ok b
  | Except.error e =>
      Except.error (500, "Failed to get benchmark: " ++ httpExcStr e)

/-! ## Run supervisor (embedding of `run_benchmark`,
`run_benchmark_process` and the module-level state, server.py
lines 41-44, 254-315 and 359-377) -/

/-- The orchestration root `WORKSPACE_DIR = Path("..")`. -/
def WORKSPACE_DIR : String := ".."

/-- The module-level mutable state: `benchmark_status` (`running`,
`message`), `current_benchmark_process`, and the process working
directory that `run_benchmark_process` saves and restores. -/
structure SupervisorState where
  running : Bool
  message : String
  currentProcess : Option Nat
  cwd : String
  deriving DecidableEq, Repr

/-- The state just after the background task has spawned the child
process: `running` set, status message updated, working directory
switched to the workspace, and the one process handle owned. -/
def beginRun (s : SupervisorState) (pid : Nat) : SupervisorState :=
  { s with running := true, message := "Benchmark running...",
           cwd := WORKSPACE_DIR, currentProcess := some pid }

/-- The response of the `run_benchmark` endpoint: HTTP 400
"Benchmark already running" when `benchmark_status["running"]` is set,
otherwise acceptance. -/
def run_benchmark (s : SupervisorState) (pid : Nat) :
    Except (Nat × String) String × SupervisorState :=
  if s.running then
    (Except.error (400, "Benchmark already running"), s)
  else
    (Except.ok ("Benchmark started"), beginRun s pid)

/-- How the external benchmark process terminates, seen from
`run_benchmark_process`: a spawn that reaches `communicate()` and exits
with a code, or an exception (e.g. `subprocess.Popen` failing). -/
inductive ProcOutcome where
  | exits (pid : Nat) (code : Int) (stdout stderr : String)
  | spawnFails (err : String)
  deriving DecidableEq, Repr

/-- The JSON-ish result dictionary returned by `run_benchmark_process`. -/
structure RunResult where
  success : Bool
  message : String
  stdout : String
  stderr : String
  deriving DecidableEq, Repr

/-- `run_benchmark_process`: save the working directory, mark the run as
started, switch to the workspace, run the process to completion (or catch
the exception), and in the `finally` block clear `running`, drop the
process handle and restore the saved working directory. -/
def run_benchmark_process (s : SupervisorState) (outcome : ProcOutcome) :
    RunResult × SupervisorState :=
  let original_cwd := s.cwd
  let s1 : SupervisorState :=
    { s with running := true, message := "Initializing benchmark...",
             cwd := WORKSPACE_DIR }
  let step : RunResult × SupervisorState :=
    match outcome with
    | ProcOutcome.exits pid code out err =>
      let s2 := beginRun s1 pid
      if code = 0 then
        ({ success := true, message := "Benchmark completed successfully",
           stdout := out, stderr := err },
         { s2 with message := "Benchmark completed successfully" })
      else
        ({ success := false,
           message := "Benchmark failed with return code " ++ Int.repr code,
           stdout := out, stderr := err },
         { s2 with message := "Benchmark failed with code " ++ Int.repr code })
    | ProcOutcome.spawnFails err =>
      ({ success := false, message := "Error running benchmark: " ++ err,
         stdout := "", stderr := err },
       { s1 with message := "Benchmark error: " ++ err })
  (step.1,
   { step.2 with running := false, currentProcess := none,
                 cwd := original_cwd })

/-- Record used for claim C2's instances: only `final_loss` present. -/
def lossRecord : BenchmarkRecord :=
  { session_id := none, client_id := none, report_id := none,
    scenario := none, start_time := none, num_clients := none,
    total_duration_ms := none, zkp_metrics := none,
    training_metrics := some { training_time_ms := none,
                               final_loss := some (617/5000) },
    filename := none, file_mtime := none }

/-- Supervisor state before any run: idle, no owned handle, service
directory as working directory. -/
def idleState : SupervisorState :=
  { running := false, message := "", currentProcess := none,
    cwd := "advanced_dashboard" }

/-- Client entry used in claim C4's witness. -/
def clientEntryA : BenchmarkRecord :=
  { session_id := some ("sess-a"), client_id := some ("client-a"),
    report_id := none, scenario := none, start_time := none,
    num_clients := none, total_duration_ms := none, zkp_metrics := none,
    training_metrics := none, filename := none, file_mtime := none }

/-- Client entry used in claim C4's witness. -/
def clientEntryB : BenchmarkRecord :=
  { session_id := some ("sess-b"), client_id := some ("client-b"),
    report_id := none, scenario := none, start_time := none,
    num_clients := none, total_duration_ms := none, zkp_metrics := none,
    training_metrics := none, filename := none, file_mtime := none }

/-- Parsed content of the two-client report used in claim C4's witness. -/
def reportData : RawData :=
  { base := { session_id := none, client_id := none, report_id := none,
              scenario := none, start_time := none, num_clients := some 3,
              total_duration_ms := none, zkp_metrics := none,
              training_metrics := none, filename := none,
              file_mtime := none },
    benchmark_id := some ("bench-1"),
    client_results := some [clientEntryA, clientEntryB] }

/-- The two-client report file used in claim C4's witness. -/
def reportFile : DiskFile :=
  { path := "../benchmarks/benchmark_report_demo.json",
    name := "benchmark_report_demo.json", mtime := 5,
    content := some reportData }

/-- A single-record file body with no fields, used by claim C3. -/
def plainBody : RawData :=
  { base := { session_id := none, client_id := none, report_id := none,
              scenario := none, start_time := none, num_clients := none,
              total_duration_ms := none, zkp_metrics := none,
              training_metrics := none, filename := none,
              file_mtime := none },
    benchmark_id := none, client_results := none }

/-- A syntactically invalid artifact (parse failure), used by claim C3. -/
def invalidFile : DiskFile :=
  { path := "../benchmarks/benchmark_bad.json",
    name := "benchmark_bad.json", mtime := 30, content := none }

/-- A valid single-record file whose name also matches the
`benchmark_report_*.json` pattern, used by claim C3's counterexample. -/
def reportNamedValid : DiskFile :=
  { path := "../benchmarks/benchmark_report_b.json",
    name := "benchmark_report_b.json", mtime := 20,
    content := some plainBody }

/-- A valid single-record file matching only `benchmark_*.json`, used by
claim C3. -/
def plainValid : DiskFile :=
  { path := "../benchmarks/benchmark_c.json",
    name := "benchmark_c.json", mtime := 10, content := some plainBody }

/-- A second valid single-record file matching only `benchmark_*.json`,
used by claim C3's witness. -/
def plainValid2 : DiskFile :=
  { path := "../benchmarks/benchmark_d.json",
    name := "benchmark_d.json", mtime := 40, content := some plainBody }

/-- Report-named single-record file used in claim C10's witness. -/
def dupDemoFile : DiskFile :=
  { path := "../benchmarks/benchmark_report_dup.json",
    name := "benchmark_report_dup.json", mtime := 1,
    content := some plainBody }

/-- Whether a record's run id lies in a given id list. -/
def idMemB (ids : List String) (r : BenchmarkRecord) : Bool :=
  match runIdOf r with
  | some d => decide (d ∈ ids)
  | none => false

/-- A record carrying neither a `report_id` nor a `session_id`, used by
claim C6's counterexample. -/
def blankRecord : BenchmarkRecord :=
  { session_id := none, client_id := none, report_id := none,
    scenario := none, start_time := none, num_clients := none,
    total_duration_ms := none, zkp_metrics := none,
    training_metrics := none, filename := none, file_mtime := none }

/-- Record of run `run-1`, used by claim C6's witness. -/
def runRecordA : BenchmarkRecord :=
  { session_id := some ("sess-1"), client_id := some ("client-1"),
    report_id := some ("run-1"), scenario := none,
    start_time := some ("2024-01-01T10:00:00"), num_clients := some 2,
    total_duration_ms := none, zkp_metrics := none,
    training_metrics := none, filename := none, file_mtime := none }

/-- Record grouped by its `session_id`, used by claim C6's witness. -/
def runRecordB : BenchmarkRecord :=
  { session_id := some ("sess-2"), client_id := none, report_id := none,
    scenario := none, start_time := some ("2024-01-02T10:00:00"),
    num_clients := none, total_duration_ms := none, zkp_metrics := none,
    training_metrics := none, filename := none, file_mtime := none }

/-! ## Lemmas and claim theorems -/

lemma insertSorted_perm {α : Type} (le : α → α → Bool) (x : α) (l : List α) :
    (insertSorted le x l).Perm (x :: l) := by
  induction l with
  | nil => exact List.Perm.refl _
  | cons y ys ih =>
    simp only [insertSorted]
    by_cases h : le x y = true
    · simp [h]
    · simp only [h, if_false]
      exact ((ih.cons y).trans (List.Perm.swap x y ys))

lemma insertionSort_perm {α : Type} (le : α → α → Bool) (l : List α) :
    (insertionSort le l).Perm l := by
  induction l with
  | nil => exact List.Perm.refl _
  | cons x xs ih =>
    exact (insertSorted_perm le x (insertionSort le xs)).trans (ih.cons x)

/-- C8: `calculate_aggregate_metrics` applied to the empty record set
returns the all-zero `AggregateMetrics` with `total_benchmarks = 0`, and
the divisor `aggCount` used by the aggregate computation is positive for
every input record set, so the computation never divides by zero. -/
theorem aggregate_empty_zero_no_div_zero :
    calculate_aggregate_metrics [] =
      { total_benchmarks := 0, avg_proof_time := 0, avg_verify_time := 0,
        avg_training_time := 0, avg_final_loss := 0, avg_proof_size := 0,
        total_duration := 0 }
    ∧ ∀ benchmarks : List BenchmarkRecord, 0 < aggCount benchmarks := by
  refine ⟨rfl, ?_⟩
  intro benchmarks
  unfold aggCount
  split <;> omega

/-- C2 (amended): for every non-empty record set each aggregate average is
the sum of that metric over all records (a missing metric contributing 0)
divided by the one shared denominator `benchmarks.length`; the averages
are rounded to 2 decimal places except `avg_final_loss`, which the code
rounds to 4 decimal places. -/
theorem aggregate_shared_denominator_means
    (benchmarks : List BenchmarkRecord) (h : benchmarks ≠ []) :
    (calculate_aggregate_metrics benchmarks).total_benchmarks
        = benchmarks.length
    ∧ (calculate_aggregate_metrics benchmarks).avg_proof_time
        = pyRound ((benchmarks.map proofTimeOf).sum / (benchmarks.length : ℚ)) 2
    ∧ (calculate_aggregate_metrics benchmarks).avg_verify_time
        = pyRound ((benchmarks.map verifyTimeOf).sum / (benchmarks.length : ℚ)) 2
    ∧ (calculate_aggregate_metrics benchmarks).avg_training_time
        = pyRound ((benchmarks.map trainingTimeOf).sum / (benchmarks.length : ℚ)) 2
    ∧ (calculate_aggregate_metrics benchmarks).avg_proof_size
        = pyRound ((benchmarks.map proofSizeOf).sum / (benchmarks.length : ℚ)) 2
    ∧ (calculate_aggregate_metrics benchmarks).total_duration
        = pyRound ((benchmarks.map durationOf).sum / (benchmarks.length : ℚ)) 2
    ∧ (calculate_aggregate_metrics benchmarks).avg_final_loss
        = pyRound ((benchmarks.map finalLossOf).sum / (benchmarks.length : ℚ)) 4 := by
  have hc : aggCount benchmarks = benchmarks.length := by
    unfold aggCount
    split
    · exact absurd (List.length_eq_zero.mp (by assumption)) h
    · rfl
  simp [calculate_aggregate_metrics, h, hc]

/-- C2 (counterexample): the claim as stated rounds all six averages to
2 decimal places, but on a single record with `final_loss = 0.1234` the
code's `avg_final_loss` (rounded to 4 places) differs from the 2-place
rounding of the mean. -/
theorem aggregate_rounding_cex :
    (calculate_aggregate_metrics [lossRecord]).avg_final_loss
      ≠ pyRound (([lossRecord].map finalLossOf).sum
          / (([lossRecord].length : ℕ) : ℚ)) 2 := by
  have hs : ([lossRecord].map finalLossOf).sum = 617/5000 := by
    simp [finalLossOf, lossRecord]
  have e1 : (calculate_aggregate_metrics [lossRecord]).avg_final_loss
      = pyRound (617/5000) 4 := by
    have h48 := aggregate_shared_denominator_means [lossRecord] (by simp)
    rw [h48.2.2.2.2.2.2, hs]
    norm_num
  have e2 : pyRound (([lossRecord].map finalLossOf).sum
      / (([lossRecord].length : ℕ) : ℚ)) 2 = pyRound (617/5000) 2 := by
    rw [hs]
    norm_num
  rw [e1, e2]
  have f4 : pyRound (617/5000) 4 = 617/5000 := by
    have : ((617:ℚ)/5000) * 10 ^ (4:ℕ) = ((1234:ℤ) : ℚ) := by norm_num
    unfold pyRound roundHalfToEven
    rw [this, Int.floor_intCast]
    norm_num
  have f2 : pyRound (617/5000) 2 = 12/100 := by
    have hq : ((617:ℚ)/5000) * 10 ^ (2:ℕ) = 617/50 := by norm_num
    have hfl : ⌊(617:ℚ)/50⌋ = 12 := by
      rw [Int.floor_eq_iff]
      norm_num
    unfold pyRound roundHalfToEven
    rw [hq, hfl]
    norm_num
  rw [f4, f2]
  norm_num

/-- C2 (witness): the amended statement instantiated on the one-record
set `[lossRecord]`. -/
theorem aggregate_shared_denominator_means_witness :
    ([lossRecord] ≠ ([] : List BenchmarkRecord))
    ∧ ((calculate_aggregate_metrics [lossRecord]).total_benchmarks
          = [lossRecord].length
      ∧ (calculate_aggregate_metrics [lossRecord]).avg_proof_time
          = pyRound (([lossRecord].map proofTimeOf).sum / ([lossRecord].length : ℚ)) 2
      ∧ (calculate_aggregate_metrics [lossRecord]).avg_verify_time
          = pyRound (([lossRecord].map verifyTimeOf).sum / ([lossRecord].length : ℚ)) 2
      ∧ (calculate_aggregate_metrics [lossRecord]).avg_training_time
          = pyRound (([lossRecord].map trainingTimeOf).sum / ([lossRecord].length : ℚ)) 2
      ∧ (calculate_aggregate_metrics [lossRecord]).avg_proof_size
          = pyRound (([lossRecord].map proofSizeOf).sum / ([lossRecord].length : ℚ)) 2
      ∧ (calculate_aggregate_metrics [lossRecord]).total_duration
          = pyRound (([lossRecord].map durationOf).sum / ([lossRecord].length : ℚ)) 2
      ∧ (calculate_aggregate_metrics [lossRecord]).avg_final_loss
          = pyRound (([lossRecord].map finalLossOf).sum / ([lossRecord].length : ℚ)) 4) :=
  ⟨by simp, aggregate_shared_denominator_means [lossRecord] (by simp)⟩

/-- C1: starting a run while the supervisor's status has `running = true`
is rejected with the explicit HTTP 400 "Benchmark already running" error:
a first `run_benchmark` on an idle state is accepted and makes the
background task own exactly one process handle, and a second
`run_benchmark` before any terminal transition returns the error, leaves
the state unchanged, and spawns nothing. -/
theorem start_while_running_rejected (s : SupervisorState) (pid1 pid2 : Nat)
    (h : s.running = false) :
    (run_benchmark s pid1).1 = Except.ok ("Benchmark started")
    ∧ (run_benchmark (run_benchmark s pid1).2 pid2).1
        = Except.error (400, "Benchmark already running")
    ∧ (run_benchmark (run_benchmark s pid1).2 pid2).2
        = (run_benchmark s pid1).2
    ∧ ((run_benchmark s pid1).2).currentProcess = some pid1 := by
  simp [run_benchmark, beginRun, h]

/-- C1 (witness): the double-start scenario on the concrete idle state. -/
theorem start_while_running_rejected_witness :
    (idleState.running = false)
    ∧ ((run_benchmark idleState 7).1 = Except.ok ("Benchmark started")
      ∧ (run_benchmark (run_benchmark idleState 7).2 8).1
          = Except.error (400, "Benchmark already running")
      ∧ (run_benchmark (run_benchmark idleState 7).2 8).2
          = (run_benchmark idleState 7).2
      ∧ ((run_benchmark idleState 7).2).currentProcess = some 7) :=
  ⟨rfl, start_while_running_rejected idleState 7 8 rfl⟩

/-- C9: `run_benchmark_process` saves the working directory before
switching to the orchestration root and restores it on every exit path —
exit code zero, nonzero exit, and an exception during spawn — so after
any run the working directory equals its value before the run. -/
theorem run_process_restores_cwd (s : SupervisorState)
    (outcome : ProcOutcome) :
    ((run_benchmark_process s outcome).2).cwd = s.cwd := by
  cases outcome <;> simp [run_benchmark_process, beginRun]

/-- C7: querying `get_benchmark` for a session id that matches no record
does NOT surface a 404 lookup miss: the blanket `except Exception` arm of
the endpoint catches the endpoint's own `HTTPException(404, "Benchmark
not found")` and re-raises it as an HTTP 500 internal server error. -/
theorem get_benchmark_unknown_id_is_500 :
    get_benchmark [] ("missing-session")
      = Except.error
          (500, "Failed to get benchmark: 404: Benchmark not found") := by
  rfl

/-- Scenario inference only writes the `scenario` key: every other field
of the record is left unchanged. -/
lemma inferScenario_preserves (path : String) (r : BenchmarkRecord) :
    (inferScenario path r).report_id = r.report_id
    ∧ (inferScenario path r).num_clients = r.num_clients
    ∧ (inferScenario path r).filename = r.filename
    ∧ (inferScenario path r).file_mtime = r.file_mtime := by
  rcases r with ⟨sid, cid, rid, sc, st, nc, td, zk, tm, fn, fm⟩
  cases sc <;> exact ⟨rfl, rfl, rfl, rfl⟩

/-- C4: normalizing a multi-client report file with N nested client
entries yields exactly N records, each inheriting the parent report's
declared run identifier (`report_id`) and client count (`num_clients`),
and each carrying provenance (source filename and modification time). -/
theorem report_normalization (f : DiskFile) (d : RawData)
    (clients : List BenchmarkRecord) (rid : String) (n : Int)
    (hc : f.content = some d) (hcr : d.client_results = some clients)
    (hb : d.benchmark_id = some rid) (hn : d.base.num_clients = some n) :
    (processFile f).length = clients.length
    ∧ ∀ b ∈ processFile f,
        b.report_id = some rid ∧ b.num_clients = some n
        ∧ b.filename = some f.name ∧ b.file_mtime = some f.mtime := by
  have hp : processFile f = clients.map (normalizeClient f d) := by
    simp [processFile, hc, hcr]
  refine ⟨by rw [hp, List.length_map], ?_⟩
  intro b hbmem
  rw [hp] at hbmem
  obtain ⟨r, hr, rfl⟩ := List.mem_map.mp hbmem
  unfold normalizeClient
  obtain ⟨e1, e2, e3, e4⟩ := inferScenario_preserves f.path
    { attachMeta f r with
        report_id := some (d.benchmark_id.getD ("unknown")),
        num_clients := some (d.base.num_clients.getD 1) }
  rw [e1, e2, e3, e4]
  simp [attachMeta, hb, hn]

/-- C4 (witness): the report-normalization theorem instantiated on the
concrete two-client report file. -/
theorem report_normalization_witness :
    (reportFile.content = some reportData
      ∧ reportData.client_results = some [clientEntryA, clientEntryB]
      ∧ reportData.benchmark_id = some ("bench-1")
      ∧ reportData.base.num_clients = some 3)
    ∧ ((processFile reportFile).length = [clientEntryA, clientEntryB].length
      ∧ ∀ b ∈ processFile reportFile,
          b.report_id = some ("bench-1") ∧ b.num_clients = some 3
          ∧ b.filename = some reportFile.name
          ∧ b.file_mtime = some reportFile.mtime) :=
  ⟨⟨rfl, rfl, rfl, rfl⟩,
   report_normalization reportFile reportData [clientEntryA, clientEntryB]
     ("bench-1") 3 rfl rfl rfl rfl⟩

/-- C5: for a record lacking an explicit `scenario` field, both
normalization paths infer the scenario from the source file path:
substring `multi` gives `multi-client`, else `single` gives
`single-client`, else `unknown` (so `benchmark_report_99.json` normalizes
to `unknown`); a record with an explicit `scenario` keeps it unchanged
regardless of the filename. -/
theorem scenario_inference_rules (f : DiskFile) (d : RawData)
    (r : BenchmarkRecord) :
    (normalizeSingle f r).scenario
        = some (r.scenario.getD (inferredScenario f.path))
    ∧ (normalizeClient f d r).scenario
        = some (r.scenario.getD (inferredScenario f.path))
    ∧ inferredScenario ("../benchmarks/benchmark_multi_client_42.json")
        = "multi-client"
    ∧ inferredScenario ("../benchmarks/benchmark_single_7.json")
        = "single-client"
    ∧ inferredScenario ("../benchmarks/benchmark_report_99.json")
        = "unknown" := by
  refine ⟨?_, ?_, by decide, by decide, by decide⟩
  · unfold normalizeSingle inferScenario attachMeta
    rcases r with ⟨sid, cid, rid, sc, st, nc, td, zk, tm, fn, fm⟩
    cases sc <;> rfl
  · unfold normalizeClient inferScenario attachMeta
    rcases r with ⟨sid, cid, rid, sc, st, nc, td, zk, tm, fn, fm⟩
    cases sc <;> rfl

/-- C3 (counterexample): a directory holding one syntactically invalid
file and two valid single-record files for which the scan does NOT return
exactly two records: one valid file is named
`benchmark_report_b.json`, so both glob patterns pick it up and its record
is emitted twice, for three records in total. -/
theorem scan_two_valid_cex :
    ([invalidFile, reportNamedValid, plainValid].countP
        (fun f => f.content.isNone) = 1
      ∧ [invalidFile, reportNamedValid, plainValid].countP
          (fun f => f.content.isSome) = 2)
    ∧ (load_benchmark_files [invalidFile, reportNamedValid, plainValid]).length
        ≠ 2 := by
  refine ⟨⟨by decide, by decide⟩, by decide⟩

/-- C3 (amended): for a directory of one syntactically invalid artifact
and two valid single-record files, all three matching only the
individual-record pattern `benchmark_*.json` (their names do not match
`benchmark_report_*.json`), the scan returns exactly the two records
normalized from the valid files: the parse failure skips only that file
and never aborts the scan of the remaining files. -/
theorem scan_skips_invalid (fbad f1 f2 : DiskFile) (d1 d2 : RawData)
    (hbad : fbad.content = none)
    (h1 : f1.content = some d1) (h1s : d1.client_results = none)
    (h2 : f2.content = some d2) (h2s : d2.client_results = none)
    (hm1 : globMatch ("benchmark_") (".json") fbad.name = true)
    (hm2 : globMatch ("benchmark_") (".json") f1.name = true)
    (hm3 : globMatch ("benchmark_") (".json") f2.name = true)
    (hn1 : globMatch ("benchmark_report_") (".json") fbad.name = false)
    (hn2 : globMatch ("benchmark_report_") (".json") f1.name = false)
    (hn3 : globMatch ("benchmark_report_") (".json") f2.name = false) :
    (load_benchmark_files [fbad, f1, f2]).Perm
      [normalizeSingle f1 d1.base, normalizeSingle f2 d2.base] := by
  have hscan : scanFiles [fbad, f1, f2] = [fbad, f1, f2] := by
    simp [scanFiles, List.filter, hm1, hm2, hm3, hn1, hn2, hn3]
  have hperm : (sortFilesDesc (scanFiles [fbad, f1, f2])).Perm
      [fbad, f1, f2] := by
    rw [hscan]
    exact insertionSort_perm _ _
  have hload : (load_benchmark_files [fbad, f1, f2]).Perm
      ([fbad, f1, f2].flatMap processFile) :=
    List.Perm.flatMap_right processFile hperm
  refine hload.trans ?_
  have e1 : processFile fbad = [] := by simp [processFile, hbad]
  have e2 : processFile f1 = [normalizeSingle f1 d1.base] := by
    simp [processFile, h1, h1s]
  have e3 : processFile f2 = [normalizeSingle f2 d2.base] := by
    simp [processFile, h2, h2s]
  simp [e1, e2, e3]

/-- C3 (witness): the amended statement on a concrete directory of one
invalid and two valid plainly-named files. -/
theorem scan_skips_invalid_witness :
    (invalidFile.content = none
      ∧ plainValid2.content = some plainBody
      ∧ plainBody.client_results = none
      ∧ plainValid.content = some plainBody
      ∧ globMatch ("benchmark_") (".json") invalidFile.name = true
      ∧ globMatch ("benchmark_") (".json") plainValid2.name = true
      ∧ globMatch ("benchmark_") (".json") plainValid.name = true
      ∧ globMatch ("benchmark_report_") (".json") invalidFile.name = false
      ∧ globMatch ("benchmark_report_") (".json") plainValid2.name = false
      ∧ globMatch ("benchmark_report_") (".json") plainValid.name = false)
    ∧ (load_benchmark_files [invalidFile, plainValid2, plainValid]).Perm
        [normalizeSingle plainValid2 plainBody.base,
         normalizeSingle plainValid plainBody.base] :=
  ⟨⟨rfl, rfl, rfl, rfl, by decide, by decide, by decide, by decide,
    by decide, by decide⟩,
   scan_skips_invalid invalidFile plainValid2 plainValid plainBody plainBody
     rfl rfl rfl rfl rfl (by decide) (by decide) (by decide) (by decide)
     (by decide) (by decide)⟩

/-- Every basename matching `benchmark_report_*.json` also matches
`benchmark_*.json`. -/
lemma globMatch_report_imp (name : String)
    (h : globMatch ("benchmark_report_") (".json") name = true) :
    globMatch ("benchmark_") (".json") name = true := by
  unfold globMatch at h ⊢
  rw [Bool.and_eq_true] at h ⊢
  obtain ⟨h1, h2⟩ := h
  have p1 : ("benchmark_report_").data <+: name.data := of_decide_eq_true h1
  have p2 : (".json").data <:+
      name.data.drop (("benchmark_report_").data.length) :=
    of_decide_eq_true h2
  constructor
  · exact decide_eq_true (List.IsPrefix.trans (by decide) p1)
  · apply decide_eq_true
    have hlen : ("benchmark_report_").data.length
        = ("benchmark_").data.length + 7 := by decide
    rw [hlen, ← List.drop_drop] at p2
    exact p2.trans (List.drop_suffix _ _)

/-- One occurrence of `a` in `L` contributes `F a` to the sum of `F` over
`L`, counted with multiplicity. -/
lemma countP_mul_le_sum_map {α : Type} [DecidableEq α] (L : List α)
    (a : α) (F : α → ℕ) :
    L.countP (fun x => decide (x = a)) * F a ≤ (L.map F).sum := by
  induction L with
  | nil => simp
  | cons x L ih =>
    rw [List.countP_cons, List.map_cons, List.sum_cons]
    by_cases hx : x = a
    · subst hx
      rw [if_pos (by simp), add_mul, one_mul, Nat.add_comm (F x) _]
      exact add_le_add_right ih (F x)
    · rw [if_neg (by simp [hx]), add_zero]
      exact le_trans ih (Nat.le_add_left _ _)

/-- C10: a file whose name matches the report convention
`benchmark_report_*.json` also matches the scan's first pattern
`benchmark_*.json`; a directory holding one copy of such a file
contributes it twice to the globbed file list, and every record the file
yields therefore appears at least twice in the scan's returned record
sequence (double-weighting it in the aggregate metrics, which sum over
that sequence). -/
theorem report_files_double_counted (dir : List DiskFile) (f : DiskFile)
    (hrep : globMatch ("benchmark_report_") (".json") f.name = true)
    (honce : dir.countP (fun x => decide (x = f)) = 1) :
    globMatch ("benchmark_") (".json") f.name = true
    ∧ (scanFiles dir).countP (fun x => decide (x = f)) = 2
    ∧ ∀ r ∈ processFile f,
        2 ≤ (load_benchmark_files dir).countP (fun x => decide (x = r)) := by
  have hind := globMatch_report_imp f.name hrep
  have h2 : (scanFiles dir).countP (fun x => decide (x = f)) = 2 := by
    unfold scanFiles
    rw [List.countP_append, List.countP_filter, List.countP_filter]
    have e1 : dir.countP (fun a => decide (a = f)
        && globMatch ("benchmark_") (".json") a.name) = 1 := by
      rw [← honce]
      apply List.countP_congr
      intro a _
      by_cases ha : a = f
      · subst ha
        simp [hind]
      · simp [ha]
    have e2 : dir.countP (fun a => decide (a = f)
        && globMatch ("benchmark_report_") (".json") a.name) = 1 := by
      rw [← honce]
      apply List.countP_congr
      intro a _
      by_cases ha : a = f
      · subst ha
        simp [hrep]
      · simp [ha]
    rw [e1, e2]
  refine ⟨hind, h2, ?_⟩
  intro r hr
  have hperm : (sortFilesDesc (scanFiles dir)).Perm (scanFiles dir) :=
    insertionSort_perm _ _
  have hl : (load_benchmark_files dir).countP (fun x => decide (x = r))
      = ((scanFiles dir).map
          (fun g => (processFile g).countP (fun x => decide (x = r)))).sum := by
    unfold load_benchmark_files
    rw [(List.Perm.flatMap_right processFile hperm).countP_eq
          (fun x => decide (x = r)), List.countP_flatMap]
    rfl
  have hmul := countP_mul_le_sum_map (scanFiles dir) f
    (fun g => (processFile g).countP (fun x => decide (x = r)))
  rw [h2] at hmul
  have hone : 1 ≤ (processFile f).countP (fun x => decide (x = r)) :=
    List.countP_pos_iff.mpr ⟨r, hr, by simp⟩
  rw [hl]
  omega

/-- C10 (witness): the double-counting theorem instantiated on a
directory holding one report-named file. -/
theorem report_files_double_counted_witness :
    (globMatch ("benchmark_report_") (".json") dupDemoFile.name = true
      ∧ [dupDemoFile].countP (fun x => decide (x = dupDemoFile)) = 1)
    ∧ (globMatch ("benchmark_") (".json") dupDemoFile.name = true
      ∧ (scanFiles [dupDemoFile]).countP
          (fun x => decide (x = dupDemoFile)) = 2
      ∧ ∀ r ∈ processFile dupDemoFile,
          2 ≤ (load_benchmark_files [dupDemoFile]).countP
                (fun x => decide (x = r))) :=
  ⟨⟨by decide, by decide⟩,
   report_files_double_counted [dupDemoFile] dupDemoFile
     (by decide) (by decide)⟩

/-- Appending a client id does not change a group's `run_id`. -/
lemma addClient_run_id (g : RunGroup) (b : BenchmarkRecord) :
    (addClient g b).run_id = g.run_id := by
  unfold addClient
  cases pyTruthy b.client_id with
  | none => rfl
  | some cid =>
    by_cases hc : cid ∈ g.client_ids
    · simp [hc]
    · simp [hc]

/-- A record without a truthy run id leaves the `runs` dictionary
unchanged. -/
lemma runIds_insertRecord_none (runs : List RunGroup) (b : BenchmarkRecord)
    (h : runIdOf b = none) :
    (insertRecord runs b).map RunGroup.run_id
      = runs.map RunGroup.run_id := by
  simp [insertRecord, h]

/-- A record whose run id is already a dictionary key leaves the key list
unchanged. -/
lemma runIds_insertRecord_mem (runs : List RunGroup) (b : BenchmarkRecord)
    (rid : String) (h : runIdOf b = some rid)
    (hm : rid ∈ runs.map RunGroup.run_id) :
    (insertRecord runs b).map RunGroup.run_id
      = runs.map RunGroup.run_id := by
  have hany : runs.any (fun g => g.run_id = rid) = true := by
    obtain ⟨g, hg, hgid⟩ := List.mem_map.mp hm
    exact List.any_eq_true.mpr ⟨g, hg, by simp [hgid]⟩
  simp only [insertRecord, h, hany, if_true]
  rw [List.map_map]
  apply List.map_congr_left
  intro g _
  by_cases hg : g.run_id = rid <;>
    simp [Function.comp, hg, addClient_run_id]

/-- A record with a fresh run id appends exactly that key. -/
lemma runIds_insertRecord_new (runs : List RunGroup) (b : BenchmarkRecord)
    (rid : String) (h : runIdOf b = some rid)
    (hm : rid ∉ runs.map RunGroup.run_id) :
    (insertRecord runs b).map RunGroup.run_id
      = runs.map RunGroup.run_id ++ [rid] := by
  have hany : runs.any (fun g => g.run_id = rid) = false := by
    rw [List.any_eq_false]
    intro g hg
    simp only [decide_eq_true_eq]
    intro hgid
    exact hm (List.mem_map.mpr ⟨g, hg, hgid⟩)
  simp only [insertRecord, h, hany, Bool.false_eq_true, if_false]
  rw [List.map_append]
  simp [addClient_run_id, mkGroup]

/-- A run id appears among the groups built by the `get_runs` loop
exactly when it was already a key or some record carries it. -/
lemma mem_runIds_foldl (records : List BenchmarkRecord) :
    ∀ (runs : List RunGroup) (id : String),
      id ∈ (records.foldl insertRecord runs).map RunGroup.run_id
        ↔ id ∈ runs.map RunGroup.run_id ∨ some id ∈ records.map runIdOf := by
  induction records with
  | nil =>
    intro runs id
    simp
  | cons b rest ih =>
    intro runs id
    rw [List.foldl_cons, ih, List.map_cons, List.mem_cons]
    cases h : runIdOf b with
    | none =>
      rw [runIds_insertRecord_none runs b h]
      constructor
      · rintro (h1 | h3)
        · exact Or.inl h1
        · exact Or.inr (Or.inr h3)
      · rintro (h1 | h2 | h3)
        · exact Or.inl h1
        · exact absurd h2.symm (by simp)
        · exact Or.inr h3
    | some rid =>
      by_cases hm : rid ∈ runs.map RunGroup.run_id
      · rw [runIds_insertRecord_mem runs b rid h hm]
        constructor
        · rintro (h1 | h3)
          · exact Or.inl h1
          · exact Or.inr (Or.inr h3)
        · rintro (h1 | h2 | h3)
          · exact Or.inl h1
          · cases Option.some.inj h2
            exact Or.inl hm
          · exact Or.inr h3
      · rw [runIds_insertRecord_new runs b rid h hm, List.mem_append,
            List.mem_singleton]
        constructor
        · rintro ((h1 | h2) | h3)
          · exact Or.inl h1
          · exact Or.inr (Or.inl (by rw [h2]))
          · exact Or.inr (Or.inr h3)
        · rintro (h1 | h2 | h3)
          · exact Or.inl (Or.inl h1)
          · exact Or.inl (Or.inr (Option.some.inj h2))
          · exact Or.inr h3

/-- The groups built by the `get_runs` loop have pairwise distinct run
ids (Python dictionaries have unique keys). -/
lemma nodup_runIds_foldl (records : List BenchmarkRecord) :
    ∀ runs : List RunGroup,
      (runs.map RunGroup.run_id).Nodup
      → ((records.foldl insertRecord runs).map RunGroup.run_id).Nodup := by
  induction records with
  | nil =>
    intro runs h
    simpa using h
  | cons b rest ih =>
    intro runs h
    rw [List.foldl_cons]
    apply ih
    cases hr : runIdOf b with
    | none =>
      rw [runIds_insertRecord_none runs b hr]
      exact h
    | some rid =>
      by_cases hm : rid ∈ runs.map RunGroup.run_id
      · rw [runIds_insertRecord_mem runs b rid hr hm]
        exact h
      · rw [runIds_insertRecord_new runs b rid hr hm, List.nodup_append]
        exact ⟨h, List.nodup_singleton rid,
          by simpa [List.disjoint_singleton] using hm⟩

/-- Counting groups by run id under distinctness: one when the id is a
key, zero otherwise. -/
lemma countP_runId_of_nodup (gs : List RunGroup) (id : String)
    (h : (gs.map RunGroup.run_id).Nodup) :
    gs.countP (fun g => decide (g.run_id = id))
      = if id ∈ gs.map RunGroup.run_id then 1 else 0 := by
  induction gs with
  | nil => simp
  | cons g gs ih =>
    rw [List.map_cons] at h
    obtain ⟨hd, hnd⟩ := List.nodup_cons.mp h
    rw [List.countP_cons, ih hnd, List.map_cons]
    by_cases hid : id = g.run_id
    · subst hid
      rw [if_neg hd,
          if_pos (show decide (g.run_id = g.run_id) = true by simp),
          if_pos (List.mem_cons_self _ _)]
    · rw [if_neg (show ¬decide (g.run_id = id) = true by
          simp only [decide_eq_true_eq]
          exact fun hc => hid hc.symm), add_zero]
      by_cases hmem : id ∈ gs.map RunGroup.run_id
      · rw [if_pos hmem, if_pos (List.mem_cons_of_mem _ hmem)]
      · rw [if_neg hmem, if_neg (fun hc => by
          rcases List.mem_cons.mp hc with h1 | h2
          · exact hid h1
          · exact hmem h2)]

/-- Sums of pointwise-added maps split. -/
lemma sum_map_add {α : Type} (l : List α) (f g : α → ℕ) :
    (l.map fun x => f x + g x).sum = (l.map f).sum + (l.map g).sum := by
  induction l with
  | nil => rfl
  | cons x l ih =>
    rw [List.map_cons, List.sum_cons, List.map_cons, List.sum_cons,
        List.map_cons, List.sum_cons, ih]
    omega

/-- Over a duplicate-free id list, the indicator of one value sums to its
membership bit. -/
lemma sum_indicator_of_nodup (ids : List String) (x : String) :
    ids.Nodup →
    ((ids.map fun d => if x = d then (1:ℕ) else 0).sum)
      = if x ∈ ids then 1 else 0 := by
  induction ids with
  | nil =>
    intro _
    rfl
  | cons d ids ih =>
    intro hn
    obtain ⟨hd, hnd⟩ := List.nodup_cons.mp hn
    rw [List.map_cons, List.sum_cons, ih hnd]
    by_cases hx : x = d
    · subst hx
      rw [if_pos rfl, if_neg hd, if_pos (List.mem_cons_self _ _)]
    · rw [if_neg hx, zero_add]
      by_cases hmem : x ∈ ids
      · rw [if_pos hmem, if_pos (List.mem_cons_of_mem _ hmem)]
      · rw [if_neg hmem, if_neg (fun hc => by
          rcases List.mem_cons.mp hc with h1 | h2
          · exact hx h1
          · exact hmem h2)]

/-- Summing, over a duplicate-free id list, the number of records with
each id counts every record whose run id lies in the list. -/
lemma sum_countP_ids (records : List BenchmarkRecord) (ids : List String)
    (hn : ids.Nodup) :
    ((ids.map fun d =>
        records.countP (fun r => decide (runIdOf r = some d))).sum)
      = records.countP (idMemB ids) := by
  induction records with
  | nil => simp
  | cons r rest ih =>
    rw [List.countP_cons]
    simp only [List.countP_cons]
    rw [sum_map_add, ih]
    have hind : ((ids.map fun d =>
        if decide (runIdOf r = some d) = true then (1:ℕ) else 0).sum)
        = if idMemB ids r = true then 1 else 0 := by
      cases hr : runIdOf r with
      | none =>
        simp [idMemB, hr]
      | some d0 =>
        have : (fun d => if decide (some d0 = some d) = true then (1:ℕ) else 0)
            = fun d => if d0 = d then (1:ℕ) else 0 := by
          funext d
          by_cases hdd : d0 = d
          · rw [if_pos (by simp [hdd]), if_pos hdd]
          · rw [if_neg (by simp [hdd]), if_neg hdd]
        rw [this, sum_indicator_of_nodup ids d0 hn]
        by_cases hmem : d0 ∈ ids
        · rw [if_pos hmem, if_pos (by simp [idMemB, hr, hmem])]
        · rw [if_neg hmem, if_neg (by simp [idMemB, hr, hmem])]
    rw [hind]

/-- When the id list covers every run id of the records, counting by
membership equals counting records that have a run id at all. -/
lemma countP_idMem_eq_isSome (records : List BenchmarkRecord)
    (ids : List String)
    (hcov : ∀ d : String, some d ∈ records.map runIdOf → d ∈ ids) :
    records.countP (idMemB ids)
      = records.countP (fun r => (runIdOf r).isSome) := by
  apply List.countP_congr
  intro r hr
  cases h : runIdOf r with
  | none => simp [idMemB, h]
  | some d =>
    have hd : d ∈ ids := hcov d (List.mem_map.mpr ⟨r, hr, h⟩)
    simp [idMemB, h, hd]

/-- C6 (amended): `get_runs` partitions the records that carry a truthy
run id (`report_id` if truthy, else `session_id`): each such record is
assigned to exactly one RunGroup (a record with neither id is assigned to
none), and summing per-group record counts reproduces the number of
id-carrying records, i.e. the groups partition that sub-multiset. -/
theorem get_runs_partition (records : List BenchmarkRecord) :
    (∀ r ∈ records,
        (get_runs records).countP
            (fun g => decide (runIdOf r = some g.run_id))
          = if (runIdOf r).isSome then 1 else 0)
    ∧ ((get_runs records).map
          (fun g => records.countP
            (fun r => decide (runIdOf r = some g.run_id)))).sum
        = (records.filter (fun r => (runIdOf r).isSome)).length := by
  have hperm : (get_runs records).Perm (records.foldl insertRecord []) := by
    unfold get_runs
    exact insertionSort_perm _ _
  have hnd : ((records.foldl insertRecord []).map RunGroup.run_id).Nodup :=
    nodup_runIds_foldl records [] (by simp)
  have hmem : ∀ id : String,
      id ∈ (records.foldl insertRecord []).map RunGroup.run_id
        ↔ some id ∈ records.map runIdOf := by
    intro id
    rw [mem_runIds_foldl records [] id]
    simp
  constructor
  · intro r hr
    rw [hperm.countP_eq]
    cases h : runIdOf r with
    | none =>
      rw [List.countP_eq_zero.mpr (by
        intro g _
        simp [h])]
      simp
    | some id =>
      rw [List.countP_congr (q := fun g => decide (g.run_id = id)) (by
        intro g _
        simp [h, eq_comm])]
      rw [countP_runId_of_nodup _ id hnd,
          if_pos ((hmem id).mpr (List.mem_map.mpr ⟨r, hr, h⟩))]
      simp
  · have hmap : ((get_runs records).map
        (fun g => records.countP
          (fun r => decide (runIdOf r = some g.run_id)))).sum
        = (((records.foldl insertRecord []).map RunGroup.run_id).map
            (fun d => records.countP
              (fun r => decide (runIdOf r = some d)))).sum := by
      rw [(hperm.map _).sum_eq, List.map_map]
      rfl
    rw [hmap, sum_countP_ids records _ hnd,
        countP_idMem_eq_isSome records _ (fun d hd => (hmem d).mpr hd),
        List.countP_eq_length_filter]

/-- C6 (counterexample): `get_runs` is not a partition of every input
record set: a record with neither a `report_id` nor a `session_id` is
dropped by the loop (`if not run_id: continue`), so on the one-record set
`[blankRecord]` no RunGroup at all contains the record, refuting
"every input record appears in exactly one RunGroup". -/
theorem get_runs_partition_cex :
    ¬ (∀ records : List BenchmarkRecord, ∀ r ∈ records,
        (get_runs records).countP
            (fun g => decide (runIdOf r = some g.run_id)) = 1) := by
  intro hclaim
  have h := hclaim [blankRecord] blankRecord (List.mem_singleton.mpr rfl)
  have hempty : get_runs [blankRecord] = [] := by decide
  rw [hempty] at h
  simp at h

/-- C6 (witness): the amended partition statement instantiated on a
concrete two-record set. -/
theorem get_runs_partition_witness :
    (runRecordA ∈ [runRecordA, runRecordB]
      ∧ (get_runs [runRecordA, runRecordB]).countP
            (fun g => decide (runIdOf runRecordA = some g.run_id))
          = if (runIdOf runRecordA).isSome then 1 else 0)
    ∧ ((get_runs [runRecordA, runRecordB]).map
          (fun g => [runRecordA, runRecordB].countP
            (fun r => decide (runIdOf r = some g.run_id)))).sum
        = ([runRecordA, runRecordB].filter
            (fun r => (runIdOf r).isSome)).length :=
  ⟨⟨by decide,
    (get_runs_partition [runRecordA, runRecordB]).1 runRecordA (by decide)⟩,
   (get_runs_partition [runRecordA, runRecordB]).2⟩
